import Mathlib

/-!
Verification of the read-side of the bulk email-verification job endpoint
(`src/routes/bulk/get.rs`): the flattening converter from nested verification
documents to flat CSV records, the paginated result exporter (JSON and CSV),
and the job status aggregator.

The embedding models:
 - `serde_json::Value` as the inductive `Json`; object iteration follows the
   map's key-sorted order (serde_json's default `Map` is a BTreeMap), so the
   documents constructed in the theorems below always list their keys in
   ascending order.
 - `Value::to_string` (the `Display` instance, i.e. compact JSON text,
   including quotes and escapes around strings) as `Json.to_string`.
 - the store (tables `bulk_jobs` and `email_results`) as an explicit `Store`
   value; the three SQL queries of the file become pure functions over it.
 - the `csv` crate writer with `has_headers(true)`: the header row is written
   lazily when the first record is serialized, so zero records produce an
   empty buffer.
-/

/-- Model of `serde_json::Value`. Numbers are modelled as integers, which is
enough for the documents the claims range over; floating point values never
decide any claim. -/
inductive Json where
  | null : Json
  | bool : Bool → Json
  | num : Int → Json
  | str : String → Json
  | arr : List Json → Json
  | obj : List (String × Json) → Json

/-- Lowercase hexadecimal digit, used for JSON control-character escapes. -/
def hexDigit (n : Nat) : Char :=
  if n < 10 then Char.ofNat (48 + n) else Char.ofNat (87 + n)

/-- Escape of a single character inside a JSON string literal, following
serde_json's serializer: quote, backslash, the named control escapes, and
`\u00XX` for the remaining control characters. -/
def escapeChar (c : Char) : String :=
  if c = '"' then "\\\""
  else if c = '\\' then "\\\\"
  else if c = '\x08' then "\\b"
  else if c = '\x0c' then "\\f"
  else if c = '\n' then "\\n"
  else if c = '\r' then "\\r"
  else if c = '\t' then "\\t"
  else if c.toNat < 32 then
    "\\u00" ++ String.mk [hexDigit (c.toNat / 16), hexDigit (c.toNat % 16)]
  else String.mk [c]

/-- Escape every character of a list (the character data of a string). -/
def escapeList : List Char → String
  | [] => ""
  | c :: cs => escapeChar c ++ escapeList cs

/-- JSON string-body escaping, serde_json style. -/
def jsonEscape (s : String) : String := escapeList s.data

mutual

/-- Model of `serde_json::Value::to_string()` (the `Display` impl): compact
JSON text. A string value serializes with its surrounding quote characters. -/
def Json.to_string : Json → String
  | .null => "null"
  | .bool b => cond b "true" "false"
  | .num n => ToString.toString n
  | .str s => "\"" ++ jsonEscape s ++ "\""
  | .arr xs => "[" ++ Json.arrBody xs ++ "]"
  | .obj kvs => "\x7b" ++ Json.objBody kvs ++ "\x7d"

/-- Comma-separated serialization of array elements. -/
def Json.arrBody : List Json → String
  | [] => ""
  | [x] => Json.to_string x
  | x :: y :: rest => Json.to_string x ++ "," ++ Json.arrBody (y :: rest)

/-- Comma-separated serialization of object entries. -/
def Json.objBody : List (String × Json) → String
  | [] => ""
  | [(k, v)] => "\"" ++ jsonEscape k ++ "\":" ++ Json.to_string v
  | (k, v) :: e :: rest =>
    "\"" ++ jsonEscape k ++ "\":" ++ Json.to_string v ++ "," ++ Json.objBody (e :: rest)

end

/-- Model of `Value::as_str`. -/
def Json.as_str : Json → Option String
  | .str s => some s
  | _ => none

/-- Model of `Value::as_bool`. -/
def Json.as_bool : Json → Option Bool
  | .bool b => some b
  | _ => none

/-- Model of `Value::as_object`, returning the entries in map order. -/
def Json.as_object : Json → Option (List (String × Json))
  | .obj kvs => some kvs
  | _ => none

/-- The flat CSV output record (`JobResultCsvResponse` in get.rs), fields in
Rust declaration order, which is also the serde/csv column order. The Rust
field `syntax_is_valid_syntax` is named `syntax_is_valid` here. -/
structure JobResultCsvResponse where
  input : String
  is_reachable : String
  misc_is_disposable : Bool
  misc_is_role_account : Bool
  mx_accepts_mail : Bool
  smtp_can_connect : Bool
  smtp_has_full_inbox : Bool
  smtp_is_catch_all : Bool
  smtp_is_deliverable : Bool
  smtp_is_disabled : Bool
  syntax_is_valid : Bool
  syntax_domain : String
  syntax_username : String
  error : Option String
deriving DecidableEq

/-- Initial values of the mutable locals at the top of `try_from`. -/
def initCsvResponse : JobResultCsvResponse :=
  { input := "", is_reachable := "", misc_is_disposable := false,
    misc_is_role_account := false, mx_accepts_mail := false,
    smtp_can_connect := false, smtp_has_full_inbox := false,
    smtp_is_catch_all := false, smtp_is_deliverable := false,
    smtp_is_disabled := false, syntax_is_valid := false, syntax_domain := "",
    syntax_username := "", error := none }

/-- Effect of one entry of the `misc` object on the mutable state
(the inner loop of the `"misc"` arm of `try_from`). -/
def miscStep (st : JobResultCsvResponse) (kv : String × Json) :
    Except String JobResultCsvResponse :=
  match kv.1 with
  | "error" => .ok { st with error := some kv.2.to_string }
  | "is_disposable" =>
    match kv.2.as_bool with
    | none => .error "is_disposable should be a boolean"
    | some b => .ok { st with misc_is_disposable := b }
  | "is_role_account" =>
    match kv.2.as_bool with
    | none => .error "is_role_account should be a boolean"
    | some b => .ok { st with misc_is_role_account := b }
  | _ => .ok st

/-- Effect of one entry of the `mx` object on the mutable state. -/
def mxStep (st : JobResultCsvResponse) (kv : String × Json) :
    Except String JobResultCsvResponse :=
  match kv.1 with
  | "error" => .ok { st with error := some kv.2.to_string }
  | "accepts_email" =>
    match kv.2.as_bool with
    | none => .error "accepts_email should be a boolean"
    | some b => .ok { st with mx_accepts_mail := b }
  | _ => .ok st

/-- Effect of one entry of the `smtp` object on the mutable state. -/
def smtpStep (st : JobResultCsvResponse) (kv : String × Json) :
    Except String JobResultCsvResponse :=
  match kv.1 with
  | "error" => .ok { st with error := some kv.2.to_string }
  | "can_connect_smtp" =>
    match kv.2.as_bool with
    | none => .error "can_connect_smtp should be a boolean"
    | some b => .ok { st with smtp_can_connect := b }
  | "has_full_inbox" =>
    match kv.2.as_bool with
    | none => .error "has_full_inbox should be a boolean"
    | some b => .ok { st with smtp_has_full_inbox := b }
  | "is_catch_all" =>
    match kv.2.as_bool with
    | none => .error "is_catch_all should be a boolean"
    | some b => .ok { st with smtp_is_catch_all := b }
  | "is_deliverable" =>
    match kv.2.as_bool with
    | none => .error "is_deliverable should be a boolean"
    | some b => .ok { st with smtp_is_deliverable := b }
  | "is_disabled" =>
    match kv.2.as_bool with
    | none => .error "is_disabled should be a boolean"
    | some b => .ok { st with smtp_is_disabled := b }
  | _ => .ok st

/-- Effect of one entry of the `syntax` object on the mutable state. -/
def syntaxStep (st : JobResultCsvResponse) (kv : String × Json) :
    Except String JobResultCsvResponse :=
  match kv.1 with
  | "error" => .ok { st with error := some kv.2.to_string }
  | "is_valid_syntax" =>
    match kv.2.as_bool with
    | none => .error "is_valid_syntax should be a boolean"
    | some b => .ok { st with syntax_is_valid := b }
  | "username" =>
    match kv.2.as_str with
    | none => .error "username should be a string"
    | some s => .ok { st with syntax_username := s }
  | "domain" =>
    match kv.2.as_str with
    | none => .error "domain should be a string"
    | some s => .ok { st with syntax_domain := s }
  | _ => .ok st

/-- Effect of one top-level entry of the document on the mutable state
(the outer loop of `try_from`). Note the `"smtp"` arm reports
"mx field should be an object" exactly as the source does (line 196). -/
def topStep (st : JobResultCsvResponse) (kv : String × Json) :
    Except String JobResultCsvResponse :=
  match kv.1 with
  | "input" =>
    match kv.2.as_str with
    | none => .error "input should be a string"
    | some s => .ok { st with input := s }
  | "is_reachable" =>
    match kv.2.as_str with
    | none => .error "is_reachable should be a string"
    | some s => .ok { st with is_reachable := s }
  | "misc" =>
    match kv.2.as_object with
    | none => .error "misc field should be an object"
    | some entries => entries.foldlM miscStep st
  | "mx" =>
    match kv.2.as_object with
    | none => .error "mx field should be an object"
    | some entries => entries.foldlM mxStep st
  | "smtp" =>
    match kv.2.as_object with
    | none => .error "mx field should be an object"
    | some entries => entries.foldlM smtpStep st
  | "syntax" =>
    match kv.2.as_object with
    | none => .error "syntax field should be an object"
    | some entries => entries.foldlM syntaxStep st
  | _ => .ok st

/-- Model of `impl TryFrom<CsvWrapper> for JobResultCsvResponse` (get.rs
lines 136-269): fail unless the top level is an object, then fold the
per-entry effects over the entries in map order. -/
def JobResultCsvResponse.try_from (v : Json) : Except String JobResultCsvResponse :=
  match v.as_object with
  | none => .error "Failed to find top level object"
  | some entries => entries.foldlM topStep initCsvResponse

/-- CSV field rendering needs quoting when the field contains the delimiter,
a quote, or a record terminator character (csv crate, QuoteStyle::Necessary). -/
def needsQuote : List Char → Bool
  | [] => false
  | c :: cs => (c == ',' || c == '"' || c == '\n' || c == '\r') || needsQuote cs

/-- Double every quote character (csv quoting of the field body). -/
def doubleQuotes : List Char → String
  | [] => ""
  | c :: cs => (if c = '"' then "\"\"" else String.mk [c]) ++ doubleQuotes cs

/-- Render one CSV field with quoting only when necessary. -/
def csvField (s : String) : String :=
  if needsQuote s.data then "\"" ++ doubleQuotes s.data ++ "\"" else s

/-- Serialization of a Bool by the csv/serde writer. -/
def csvBool (b : Bool) : String := cond b "true" "false"

/-- The fixed header row the csv writer derives from the serde field names
of `JobResultCsvResponse` (14 columns, declaration order). -/
def csvHeader : String :=
  "input,is_reachable,misc.is_disposable,misc.is_role_account,mx.accepts_mail,smtp.can_connect,smtp.has_full_inbox,smtp.is_catch_all,smtp.is_deliverable,smtp.is_disabled,syntax.is_valid_syntax,syntax.domain,syntax.username,error\n"

/-- One CSV data row for a flat record, fields in declaration order; a `none`
error serializes as an empty field. -/
def csvRecordRow (r : JobResultCsvResponse) : String :=
  csvField r.input ++ "," ++ csvField r.is_reachable ++ "," ++
  csvBool r.misc_is_disposable ++ "," ++ csvBool r.misc_is_role_account ++ "," ++
  csvBool r.mx_accepts_mail ++ "," ++ csvBool r.smtp_can_connect ++ "," ++
  csvBool r.smtp_has_full_inbox ++ "," ++ csvBool r.smtp_is_catch_all ++ "," ++
  csvBool r.smtp_is_deliverable ++ "," ++ csvBool r.smtp_is_disabled ++ "," ++
  csvBool r.syntax_is_valid ++ "," ++ csvField r.syntax_domain ++ "," ++
  csvField r.syntax_username ++ "," ++
  (match r.error with | none => "" | some e => csvField e) ++ "\n"

/-- Concatenate the data rows. -/
def csvRows : List JobResultCsvResponse → String
  | [] => ""
  | r :: rs => csvRecordRow r ++ csvRows rs

/-- Model of the csv crate writer with `has_headers(true)`: the header is
written when the first record is serialized, so zero records produce an
empty buffer (`into_inner` of the untouched `vec![]`). -/
def writeCsv (rs : List JobResultCsvResponse) : String :=
  match rs with
  | [] => ""
  | _ => csvHeader ++ csvRows rs

/-- A row of the `bulk_jobs` table (`JobRecord` in get.rs). The timestamp is
opaque to every claim and is modelled as an integer. -/
structure JobRecord where
  id : Int
  created_at : Int
  total_records : Int
deriving DecidableEq

/-- A row of the `email_results` table: a monotone row id, the owning job id,
and the stored verification document. -/
structure EmailResultRow where
  id : Int
  job_id : Int
  result : Json

/-- The read-only store the three operations query. -/
structure Store where
  bulk_jobs : List JobRecord
  email_results : List EmailResultRow

/-- Insert a row into a list sorted by `id` (stable insertion). -/
def insertById (r : EmailResultRow) : List EmailResultRow → List EmailResultRow
  | [] => [r]
  | x :: xs => if r.id ≤ x.id then r :: x :: xs else x :: insertById r xs

/-- Sort rows by `id` ascending (the `ORDER BY id` of both result queries). -/
def sortById (l : List EmailResultRow) : List EmailResultRow :=
  l.foldr insertById []

/-- The rows of `email_results` belonging to a job (the `WHERE job_id = $1`
filter, in table order). -/
def jobRows (s : Store) (job_id : Int) : List EmailResultRow :=
  s.email_results.filter (fun r => r.job_id == job_id)

/-- The result-page query shared by both exporters (get.rs lines 327-337 and
405-415): filter by job id, order by row id, apply OFFSET then LIMIT, and
project the `result` column. -/
def resultsQuery (s : Store) (job_id : Int) (limit offset : Nat) : List Json :=
  (((sortById (jobRows s job_id)).map (fun r => r.result)).drop offset).take limit

/-- Model of the `SELECT ... FROM bulk_jobs WHERE id = $1 LIMIT 1` lookup. -/
def fetchJob (s : Store) (job_id : Int) : Option JobRecord :=
  s.bulk_jobs.find? (fun r => r.id == job_id)

/-- Model of the Postgres `result ->> 'is_reachable'` text extraction: SQL
NULL when the document is not an object, the key is missing, or the value is
JSON null; the raw characters for a string value; the JSON text otherwise. -/
def arrow_text (j : Json) (key : String) : Option String :=
  match j with
  | .obj kvs =>
    match kvs.find? (fun kv => kv.1 == key) with
    | none => none
    | some (_, .null) => none
    | some (_, .str s) => some s
    | some (_, v) => some v.to_string
  | _ => none

/-- The aggregate row of the status query (get.rs lines 464-476). `LIKE` with
a wildcard-free pattern is string equality. -/
structure AggInfo where
  total_processed : Nat
  safe_count : Nat
  risky_count : Nat
  invalid_count : Nat
  unknown_count : Nat
deriving DecidableEq

/-- The reachability text of one stored row. -/
def reachOf (r : EmailResultRow) : Option String :=
  arrow_text r.result "is_reachable"

/-- Count the rows of a job whose `is_reachable` text equals a category
(the `COUNT(CASE WHEN result ->> 'is_reachable' LIKE c THEN 1 END)` columns;
a wildcard-free `LIKE` pattern is string equality, and a NULL text never
matches). -/
def countReach (rows : List EmailResultRow) (c : String) : Nat :=
  match rows with
  | [] => 0
  | r :: t => (if reachOf r = some c then 1 else 0) + countReach t c

/-- Model of the aggregate status query. -/
def aggQuery (s : Store) (job_id : Int) : AggInfo :=
  { total_processed := (jobRows s job_id).length,
    safe_count := countReach (jobRows s job_id) "safe",
    risky_count := countReach (jobRows s job_id) "risky",
    invalid_count := countReach (jobRows s job_id) "invalid",
    unknown_count := countReach (jobRows s job_id) "unknown" }

/-- Modelled from the spec: `crate::errors::ReacherError` lives outside the
provided sources (only `ReacherError::Csv()`, `ReacherError::Json()` and
`ReacherError::from(sqlx::Error)` appear in get.rs). Following the error
taxonomy of the spec, a job-metadata lookup that finds no row surfaces as a
client-facing NotFound carrying the job id; CSV conversion failures surface
as `Csv`; JSON envelope serialization failures as `Json`. -/
inductive ReacherError where
  | NotFound : Int → ReacherError
  | Csv : ReacherError
  | Json : ReacherError
deriving DecidableEq

/-- Derived job status (`ValidStatus` in get.rs). -/
inductive ValidStatus where
  | Running : ValidStatus
  | Completed : ValidStatus
deriving DecidableEq

/-- Rust `as i32` narrowing of an i64 value: wrap into the i32 range,
written with the literal bounds 2147483648 = 2^31 and 4294967296 = 2^32. -/
def i64_as_i32 (n : Int) : Int := (n + 2147483648) % 4294967296 - 2147483648

/-- The status derivation of get.rs lines 489-493:
`if (total_processed as i32) < total_records { Running } else { Completed }`. -/
def derive_job_status (total_processed total_records : Int) : ValidStatus :=
  if i64_as_i32 total_processed < total_records then .Running else .Completed

/-- Category counts of the status response body. -/
structure JobStatusSummaryResponseBody where
  total_safe : Int
  total_risky : Int
  total_invalid : Int
  total_unknown : Int
deriving DecidableEq

/-- The status response body (`JobStatusResponseBody` in get.rs). -/
structure JobStatusResponseBody where
  job_id : Int
  created_at : Int
  total_records : Int
  total_processed : Int
  summary : JobStatusSummaryResponseBody
  job_status : ValidStatus
deriving DecidableEq

/-- Model of the `job_status` handler (get.rs lines 439-508): fetch the job
record (NotFound when absent), run the aggregate query, derive the status and
assemble the body. Counts are narrowed with `as i32` as in the source. -/
def job_status (s : Store) (job_id : Int) : Except ReacherError JobStatusResponseBody :=
  match fetchJob s job_id with
  | none => .error (.NotFound job_id)
  | some rec =>
    let agg := aggQuery s job_id
    .ok { job_id := rec.id, created_at := rec.created_at,
          total_records := rec.total_records,
          total_processed := i64_as_i32 agg.total_processed,
          summary := { total_safe := i64_as_i32 agg.safe_count,
                       total_risky := i64_as_i32 agg.risky_count,
                       total_invalid := i64_as_i32 agg.invalid_count,
                       total_unknown := i64_as_i32 agg.unknown_count },
          job_status := derive_job_status agg.total_processed rec.total_records }

/-- Model of `job_result_json` (get.rs lines 399-437): the page of documents,
verbatim, in stored order. It never consults `bulk_jobs`. -/
def job_result_json (s : Store) (job_id : Int) (limit offset : Nat) : List Json :=
  resultsQuery s job_id limit offset

/-- The conversion loop of `job_result_csv`: convert the page's documents in
order, stopping at the first failure (whose message is logged and mapped to
`ReacherError::Csv` by the handler). -/
def convertAll : List Json → Except String (List JobResultCsvResponse)
  | [] => .ok []
  | d :: ds =>
    match JobResultCsvResponse.try_from d with
    | .error e => .error e
    | .ok r =>
      match convertAll ds with
      | .error e => .error e
      | .ok rs => .ok (r :: rs)

/-- Model of `job_result_csv` (get.rs lines 321-397): convert every document
of the page; the first conversion failure aborts the whole export with
`ReacherError::Csv`; otherwise render the csv buffer. It never consults
`bulk_jobs`. -/
def job_result_csv (s : Store) (job_id : Int) (limit offset : Nat) :
    Except ReacherError String :=
  match convertAll (resultsQuery s job_id limit offset) with
  | .error _ => .error ReacherError.Csv
  | .ok rs => .ok (writeCsv rs)

/-- The requested export format (`JobResultResponseFormat`). -/
inductive JobResultResponseFormat where
  | Json : JobResultResponseFormat
  | Csv : JobResultResponseFormat
deriving DecidableEq

/-- The export request query parameters (`JobResultRequest`). -/
structure JobResultRequest where
  format : Option JobResultResponseFormat
  limit : Option Nat
  offset : Option Nat

/-- Model of `serde_json::to_vec(&JobResultJsonResponse { results })`. -/
def jsonEnvelope (docs : List Json) : String :=
  (Json.obj [("results", Json.arr docs)]).to_string

/-- Model of the `job_result` dispatcher (get.rs lines 272-319): default
format json, default limit 50 (json) or 5000 (csv), default offset 0; the
reply is a content-type header paired with the body. -/
def job_result (s : Store) (job_id : Int) (req : JobResultRequest) :
    Except ReacherError (String × String) :=
  match req.format.getD JobResultResponseFormat.Json with
  | .Json =>
    .ok ("application/json",
         jsonEnvelope (job_result_json s job_id (req.limit.getD 50) (req.offset.getD 0)))
  | .Csv =>
    match job_result_csv s job_id (req.limit.getD 5000) (req.offset.getD 0) with
    | .error e => .error e
    | .ok data => .ok ("text/csv", data)

/-- An empty store: no jobs, no result rows. -/
def store0 : Store := { bulk_jobs := [], email_results := [] }

/-- A store holding one job with ten expected records and no result rows. -/
def store4 : Store :=
  { bulk_jobs := [{ id := 1, created_at := 0, total_records := 10 }],
    email_results := [] }

/-- A store holding one result row whose document is a JSON array. -/
def store5 : Store :=
  { bulk_jobs := [],
    email_results := [{ id := 1, job_id := 1, result := Json.arr [] }] }

/-- A store with two rows for job 1: one recognized category, one not. -/
def store8 : Store :=
  { bulk_jobs := [{ id := 1, created_at := 0, total_records := 5 }],
    email_results :=
      [{ id := 1, job_id := 1,
         result := Json.obj [("is_reachable", Json.str "safe")] },
       { id := 2, job_id := 1,
         result := Json.obj [("is_reachable", Json.str "pending")] }] }

/-- One optional section of an error-collapse document: when present, the
section holds exactly one `error` entry. -/
def secObj (name : String) : Option Json → List (String × Json)
  | none => []
  | some v => [(name, Json.obj [("error", v)])]

/-- A verification document whose four sections carry optional `error`
values, with the top-level keys listed in ascending (map) order:
misc, mx, smtp, syntax. -/
def errDoc (m x s y : Option Json) : Json :=
  Json.obj (secObj "misc" m ++ secObj "mx" x ++ secObj "smtp" s ++ secObj "syntax" y)

/-- The last present value in a list of optional values. -/
def lastSome : List (Option Json) → Option Json
  | [] => none
  | o :: rest =>
    match lastSome rest with
    | some v => some v
    | none => o

/-- The boolean-typed fields of a flat record, in column order. -/
def boolFields (r : JobResultCsvResponse) : List Bool :=
  [r.misc_is_disposable, r.misc_is_role_account, r.mx_accepts_mail,
   r.smtp_can_connect, r.smtp_has_full_inbox, r.smtp_is_catch_all,
   r.smtp_is_deliverable, r.smtp_is_disabled, r.syntax_is_valid]

/-- The recognized reachability categories, as `is_reachable` texts. -/
def recognizedReach : List (Option String) :=
  [some "safe", some "risky", some "invalid", some "unknown"]

/-- How many of the four category buckets one row's text falls into. -/
def categoryHits (o : Option String) : Nat :=
  (if o = some "safe" then 1 else 0) + (if o = some "risky" then 1 else 0) +
  (if o = some "invalid" then 1 else 0) + (if o = some "unknown" then 1 else 0)

/-- Helper: the conversion loop fails whenever some document of the page
fails to convert. -/
lemma convertAll_error_of_mem {l : List Json} {d : Json}
    (hd : d ∈ l) (he : ∀ r, JobResultCsvResponse.try_from d ≠ .ok r) :
    ∃ msg, convertAll l = .error msg := by
  induction l with
  | nil => cases hd
  | cons a t ih =>
    unfold convertAll
    cases hda : JobResultCsvResponse.try_from a with
    | error e => exact ⟨e, rfl⟩
    | ok r =>
      rcases List.mem_cons.mp hd with hd1 | hd1
      · subst hd1; exact absurd hda (he r)
      · rcases ih hd1 with ⟨m, hm⟩
        rw [hm]
        exact ⟨m, rfl⟩

/-- Helper: one row falls into at most one category bucket. -/
lemma categoryHits_le_one (o : Option String) : categoryHits o ≤ 1 := by
  rcases o with _ | s
  · decide
  by_cases h1 : s = "safe"
  · subst h1; decide
  by_cases h2 : s = "risky"
  · subst h2; decide
  by_cases h3 : s = "invalid"
  · subst h3; decide
  by_cases h4 : s = "unknown"
  · subst h4; decide
  simp [categoryHits, h1, h2, h3, h4]

/-- Helper: one row falls into exactly one bucket precisely when its text is
a recognized category. -/
lemma categoryHits_eq_one_iff (o : Option String) :
    categoryHits o = 1 ↔ o ∈ recognizedReach := by
  rcases o with _ | s
  · decide
  by_cases h1 : s = "safe"
  · subst h1; decide
  by_cases h2 : s = "risky"
  · subst h2; decide
  by_cases h3 : s = "invalid"
  · subst h3; decide
  by_cases h4 : s = "unknown"
  · subst h4; decide
  simp [categoryHits, recognizedReach, h1, h2, h3, h4]

/-- Helper: the four category counts sum to the total bucket hits. -/
lemma countReach_sum (rows : List EmailResultRow) :
    countReach rows "safe" + countReach rows "risky" +
      countReach rows "invalid" + countReach rows "unknown" =
    (rows.map (fun r => categoryHits (reachOf r))).sum := by
  induction rows with
  | nil => rfl
  | cons a t ih =>
    have hcat : categoryHits (reachOf a) =
        (if reachOf a = some "safe" then 1 else 0) +
        (if reachOf a = some "risky" then 1 else 0) +
        (if reachOf a = some "invalid" then 1 else 0) +
        (if reachOf a = some "unknown" then 1 else 0) := rfl
    simp only [countReach, List.map_cons, List.sum_cons]
    omega

/-- Helper: total bucket hits never exceed the row count. -/
lemma sum_categoryHits_le (rows : List EmailResultRow) :
    (rows.map (fun r => categoryHits (reachOf r))).sum ≤ rows.length := by
  induction rows with
  | nil => simp
  | cons a t ih =>
    simp only [List.map_cons, List.sum_cons, List.length_cons]
    have := categoryHits_le_one (reachOf a)
    omega

/-- Helper: bucket hits equal the row count exactly when every row's text is
recognized. -/
lemma sum_categoryHits_eq_iff (rows : List EmailResultRow) :
    (rows.map (fun r => categoryHits (reachOf r))).sum = rows.length ↔
      ∀ r ∈ rows, reachOf r ∈ recognizedReach := by
  induction rows with
  | nil => simp
  | cons a t ih =>
    simp only [List.map_cons, List.sum_cons, List.length_cons, List.mem_cons]
    have h1 := categoryHits_le_one (reachOf a)
    have h2 := sum_categoryHits_le t
    constructor
    · intro h
      have ha : categoryHits (reachOf a) = 1 := by omega
      have ht : (t.map (fun r => categoryHits (reachOf r))).sum = t.length := by omega
      intro r hr
      rcases hr with hr | hr
      · subst hr
        exact (categoryHits_eq_one_iff _).mp ha
      · exact ih.mp ht r hr
    · intro h
      have ha : categoryHits (reachOf a) = 1 :=
        (categoryHits_eq_one_iff _).mpr (h a (Or.inl rfl))
      have ht : (t.map (fun r => categoryHits (reachOf r))).sum = t.length :=
        ih.mpr (fun r hr => h r (Or.inr hr))
      omega

/-- Claim C1, counterexample to the claim as stated: the aggregate count
2147483648 = 2^31 exceeds a total of 1 record, yet the status derivation
returns Running, because the source narrows the i64 count with `as i32`
before comparing, wrapping 2^31 to -2^31. -/
theorem C1_counterexample :
    (2147483648 : Int) > 1 ∧
      derive_job_status 2147483648 1 = ValidStatus.Running := by
  constructor
  · decide
  · decide

/-- Claim C1, amended: for every aggregate count representable in i32
(0 ≤ total_processed < 2^31, which the `as i32` narrowing preserves),
status derivation returns Running exactly when total_processed is less than
total_records, and Completed otherwise — including equality and over-count,
without crashing (the derivation is a total function). -/
theorem C1_running_iff (p r : Int) (h0 : 0 ≤ p) (h1 : p < 2147483648) :
    (derive_job_status p r = ValidStatus.Running ↔ p < r) ∧
    (¬p < r → derive_job_status p r = ValidStatus.Completed) := by
  have hw : i64_as_i32 p = p := by
    unfold i64_as_i32
    have : (p + 2147483648) % 4294967296 = p + 2147483648 :=
      Int.emod_eq_of_lt (by omega) (by omega)
    omega
  unfold derive_job_status
  rw [hw]
  by_cases h : p < r
  · simp [h]
  · simp [h]

/-- Claim C1, witness: the amended theorem applied at counts 2 and 5 against
3 expected records. -/
theorem C1_witness :
    ((derive_job_status 2 3 = ValidStatus.Running ↔ (2 : Int) < 3) ∧
      (¬(2 : Int) < 3 → derive_job_status 2 3 = ValidStatus.Completed)) ∧
    (¬(5 : Int) < 3 → derive_job_status 5 3 = ValidStatus.Completed) :=
  ⟨C1_running_iff 2 3 (by decide) (by decide),
   (C1_running_iff 5 3 (by decide) (by decide)).2⟩

/-- Claim C2, counterexample to the claim as stated: on a store with no job
record for id 7, both export formats succeed (CSV with an empty body, JSON
with an empty results envelope) instead of returning NotFound. -/
theorem C2_counterexample :
    job_result store0 7 ⟨some .Csv, none, none⟩ = .ok ("text/csv", "") ∧
    job_result store0 7 ⟨none, none, none⟩ =
      .ok ("application/json", "\x7b\"results\":[]\x7d") ∧
    job_result store0 7 ⟨some .Csv, none, none⟩ ≠
      .error (ReacherError.NotFound 7) ∧
    job_result store0 7 ⟨none, none, none⟩ ≠
      .error (ReacherError.NotFound 7) := by
  refine ⟨rfl, rfl, ?_, ?_⟩
  · intro h
    exact Except.noConfusion h
  · intro h
    exact Except.noConfusion h

/-- Claim C2, amended: for a job id with no metadata row (and no orphan
result rows), the status operation returns NotFound, while the result-export
operation never consults the job table: both formats succeed with an empty
result set, and export never returns NotFound for any request. -/
theorem C2_unknown_job (s : Store) (job_id : Int)
    (hjob : ∀ r ∈ s.bulk_jobs, r.id ≠ job_id)
    (hres : ∀ r ∈ s.email_results, r.job_id ≠ job_id) :
    job_status s job_id = .error (ReacherError.NotFound job_id) ∧
    (∀ limit offset, job_result_json s job_id limit offset = []) ∧
    (∀ limit offset, job_result_csv s job_id limit offset = .ok "") ∧
    (∀ req, job_result s job_id req ≠ .error (ReacherError.NotFound job_id)) := by
  have hfetch : fetchJob s job_id = none := by
    apply List.find?_eq_none.mpr
    intro r hr
    simpa using hjob r hr
  have hrows : jobRows s job_id = [] := by
    apply List.filter_eq_nil_iff.mpr
    intro r hr
    simpa using hres r hr
  have hquery : ∀ limit offset, resultsQuery s job_id limit offset = [] := by
    intro l o
    unfold resultsQuery
    rw [hrows]
    simp [sortById]
  have hcsv : ∀ limit offset, job_result_csv s job_id limit offset = .ok "" := by
    intro l o
    unfold job_result_csv
    rw [hquery l o]
    rfl
  refine ⟨?_, ?_, hcsv, ?_⟩
  · unfold job_status
    rw [hfetch]
  · intro l o
    unfold job_result_json
    exact hquery l o
  · intro req
    rcases req with ⟨fmt, lim, off⟩
    rcases fmt with _ | f
    · exact fun h => nomatch h
    · cases f
      · exact fun h => nomatch h
      · intro h
        unfold job_result at h
        rw [show (some JobResultResponseFormat.Csv).getD JobResultResponseFormat.Json
              = JobResultResponseFormat.Csv from rfl] at h
        rw [hcsv (lim.getD 5000) (off.getD 0)] at h
        exact nomatch h

/-- Claim C2, witness: the amended theorem applied to the empty store and
job id 7. -/
theorem C2_witness :
    job_status store0 7 = .error (ReacherError.NotFound 7) ∧
    job_result_csv store0 7 5000 0 = .ok "" ∧
    job_result_json store0 7 50 0 = [] := by
  have h := C2_unknown_job store0 7 (by intro r hr; cases hr) (by intro r hr; cases hr)
  exact ⟨h.1, h.2.2.1 5000 0, h.2.1 50 0⟩

/-- Claim C3, counterexample to the claim as stated: for the document with
mx.error "dns timeout" and smtp.error "connection refused", the flat record's
error field is not the bare string "connection refused" — the source stores
`Value::to_string()`, the JSON text, which keeps the surrounding quotes. -/
theorem C3_counterexample :
    (JobResultCsvResponse.try_from
        (Json.obj [("mx", Json.obj [("error", Json.str "dns timeout")]),
                   ("smtp", Json.obj [("error", Json.str "connection refused")])])).map
      JobResultCsvResponse.error ≠ Except.ok (some "connection refused") :=
  fun h => absurd (Option.some.inj (Except.ok.inj h)) (by decide)

/-- Claim C3, amended: when error sub-fields appear under several of the
sections misc, mx, smtp, syntax, the flat record surfaces the JSON-text
serialization of the error encountered last in the traversal order
misc, mx, smtp, syntax (the map's ascending key order); in particular the
document with mx.error "dns timeout" and smtp.error "connection refused"
yields an error field equal to the JSON text of the smtp error, i.e. the
string "connection refused" surrounded by quote characters. -/
theorem C3_last_error_wins (m x s y : Option Json) :
    (JobResultCsvResponse.try_from (errDoc m x s y)).map JobResultCsvResponse.error =
      Except.ok ((lastSome [m, x, s, y]).map Json.to_string) ∧
    (JobResultCsvResponse.try_from
        (Json.obj [("mx", Json.obj [("error", Json.str "dns timeout")]),
                   ("smtp", Json.obj [("error", Json.str "connection refused")])])).map
      JobResultCsvResponse.error = Except.ok (some "\"connection refused\"") := by
  refine ⟨?_, rfl⟩
  rcases m with _ | vm <;> rcases x with _ | vx <;> rcases s with _ | vs <;>
    rcases y with _ | vy <;> rfl

/-- Claim C3, witness: the amended theorem applied to a document carrying
errors under mx and smtp only. -/
theorem C3_witness :
    (JobResultCsvResponse.try_from
        (errDoc none (some (Json.str "dns timeout"))
          (some (Json.str "connection refused")) none)).map
      JobResultCsvResponse.error =
      Except.ok ((lastSome [none, some (Json.str "dns timeout"),
        some (Json.str "connection refused"), none]).map Json.to_string) :=
  (C3_last_error_wins none (some (Json.str "dns timeout"))
    (some (Json.str "connection refused")) none).1

/-- Claim C4, counterexample to the claim as stated: a job with zero stored
result rows yields an empty CSV body, not a header-only body — the csv
writer emits the header only when the first record is serialized. -/
theorem C4_counterexample :
    job_result_csv store4 1 5000 0 = .ok "" ∧ ("" : String) ≠ csvHeader :=
  ⟨rfl, by decide⟩

/-- Claim C4, amended: for every job whose requested pagination window holds
zero stored result documents, the CSV export succeeds and returns an empty
body — no header row and no data rows. -/
theorem C4_empty_page (s : Store) (job_id : Int) (limit offset : Nat)
    (h : resultsQuery s job_id limit offset = []) :
    job_result_csv s job_id limit offset = .ok "" := by
  unfold job_result_csv
  rw [h]
  rfl

/-- Claim C4, witness: the amended theorem applied to a store with a job and
no result rows. -/
theorem C4_witness : job_result_csv store4 1 5000 0 = .ok "" :=
  C4_empty_page store4 1 5000 0 rfl

/-- Claim C5: a stored document whose top level is not a JSON object makes
the CSV export of any page containing it fail entirely (the conversion error
is "Failed to find top level object", surfaced as ReacherError.Csv, with no
CSV body), while the JSON export of the same page succeeds and returns all
the page's documents verbatim. -/
theorem C5_malformed (s : Store) (job_id : Int) (limit offset : Nat) (d : Json)
    (hmem : d ∈ resultsQuery s job_id limit offset) (hobj : d.as_object = none) :
    JobResultCsvResponse.try_from d = .error "Failed to find top level object" ∧
    job_result_csv s job_id limit offset = .error ReacherError.Csv ∧
    job_result_json s job_id limit offset = resultsQuery s job_id limit offset := by
  have htf : JobResultCsvResponse.try_from d =
      .error "Failed to find top level object" := by
    unfold JobResultCsvResponse.try_from
    rw [hobj]
  refine ⟨htf, ?_, rfl⟩
  have herr : ∀ r, JobResultCsvResponse.try_from d ≠ .ok r := by
    intro r h
    rw [htf] at h
    exact nomatch h
  rcases convertAll_error_of_mem hmem herr with ⟨m, hm⟩
  unfold job_result_csv
  rw [hm]

/-- Claim C5, witness: the theorem applied to a store whose only result row
for job 1 is a JSON array. -/
theorem C5_witness :
    JobResultCsvResponse.try_from (Json.arr []) =
      .error "Failed to find top level object" ∧
    job_result_csv store5 1 50 0 = .error ReacherError.Csv ∧
    job_result_json store5 1 50 0 = resultsQuery store5 1 50 0 :=
  C5_malformed store5 1 50 0 (Json.arr [])
    (by rw [show resultsQuery store5 1 50 0 = [Json.arr []] from rfl]
        exact List.mem_singleton.mpr rfl)
    rfl

/-- Claim C6, counterexample to the claim as stated: the flat record produced
from the document holding only is_reachable "safe" has nine boolean fields,
not twelve, so "all twelve booleans false" cannot describe it. -/
theorem C6_counterexample :
    (JobResultCsvResponse.try_from (Json.obj [("is_reachable", Json.str "safe")])).map
      (fun r => (boolFields r).length) = Except.ok 9 ∧ (9 : Nat) ≠ 12 :=
  ⟨rfl, by decide⟩

/-- Claim C6, amended: absent recognized keys leave the flat fields at
type-appropriate zero values — the document holding only is_reachable "safe"
flattens to the record with is_reachable "safe", all nine booleans false, all
other strings empty and no error — and unknown top-level or nested keys
leave the state untouched at every level. -/
theorem C6_zero_defaults :
    (JobResultCsvResponse.try_from (Json.obj [("is_reachable", Json.str "safe")]) =
      .ok { initCsvResponse with is_reachable := "safe" }) ∧
    (boolFields { initCsvResponse with is_reachable := "safe" } =
      List.replicate 9 false) ∧
    ({ initCsvResponse with is_reachable := "safe" } : JobResultCsvResponse).input = "" ∧
    ({ initCsvResponse with is_reachable := "safe" } : JobResultCsvResponse).syntax_domain = "" ∧
    ({ initCsvResponse with is_reachable := "safe" } : JobResultCsvResponse).syntax_username = "" ∧
    ({ initCsvResponse with is_reachable := "safe" } : JobResultCsvResponse).error = none ∧
    (∀ st k v,
      k ∉ (["input", "is_reachable", "misc", "mx", "smtp", "syntax"] : List String) →
      topStep st (k, v) = .ok st) ∧
    (∀ st k v,
      k ∉ (["error", "is_disposable", "is_role_account"] : List String) →
      miscStep st (k, v) = .ok st) ∧
    (∀ st k v, k ∉ (["error", "accepts_email"] : List String) →
      mxStep st (k, v) = .ok st) ∧
    (∀ st k v,
      k ∉ (["error", "can_connect_smtp", "has_full_inbox", "is_catch_all",
            "is_deliverable", "is_disabled"] : List String) →
      smtpStep st (k, v) = .ok st) ∧
    (∀ st k v,
      k ∉ (["error", "is_valid_syntax", "username", "domain"] : List String) →
      syntaxStep st (k, v) = .ok st) := by
  refine ⟨rfl, rfl, rfl, rfl, rfl, rfl, ?_, ?_, ?_, ?_, ?_⟩ <;>
    · intro st k v hk
      simp only [List.mem_cons, List.not_mem_nil, or_false, not_or] at hk
      first
        | (unfold topStep; split <;> simp_all)
        | (unfold miscStep; split <;> simp_all)
        | (unfold mxStep; split <;> simp_all)
        | (unfold smtpStep; split <;> simp_all)
        | (unfold syntaxStep; split <;> simp_all)

/-- Claim C6, witness: the amended theorem's unknown-key clauses applied to
the key "x-unknown" at every level. -/
theorem C6_witness :
    topStep initCsvResponse ("x-unknown", Json.null) = .ok initCsvResponse ∧
    miscStep initCsvResponse ("x-unknown", Json.null) = .ok initCsvResponse ∧
    mxStep initCsvResponse ("x-unknown", Json.null) = .ok initCsvResponse ∧
    smtpStep initCsvResponse ("x-unknown", Json.null) = .ok initCsvResponse ∧
    syntaxStep initCsvResponse ("x-unknown", Json.null) = .ok initCsvResponse :=
  ⟨C6_zero_defaults.2.2.2.2.2.2.1 initCsvResponse "x-unknown" Json.null (by decide),
   C6_zero_defaults.2.2.2.2.2.2.2.1 initCsvResponse "x-unknown" Json.null (by decide),
   C6_zero_defaults.2.2.2.2.2.2.2.2.1 initCsvResponse "x-unknown" Json.null (by decide),
   C6_zero_defaults.2.2.2.2.2.2.2.2.2.1 initCsvResponse "x-unknown" Json.null (by decide),
   C6_zero_defaults.2.2.2.2.2.2.2.2.2.2 initCsvResponse "x-unknown" Json.null (by decide)⟩

/-- Claim C7: evaluation of the code at the failing input. A document whose
smtp field is not an object fails with the message "mx field should be an
object" — the smtp arm of the converter names the wrong field (copy-paste
slip at get.rs line 196), contradicting the field-specific error contract. -/
theorem C7_failing_eval :
    JobResultCsvResponse.try_from (Json.obj [("smtp", Json.num 5)]) =
      .error "mx field should be an object" ∧
    "mx field should be an object" ≠ "smtp field should be an object" :=
  ⟨rfl, by decide⟩

/-- Claim C8: each row is counted in at most one reachability category, the
four category counts sum to at most total_processed, and equality holds
exactly when every row of the job has a recognized is_reachable text. -/
theorem C8_category_counts (s : Store) (job_id : Int) :
    (∀ (r : EmailResultRow) (c₁ c₂ : String),
      reachOf r = some c₁ → reachOf r = some c₂ → c₁ = c₂) ∧
    (aggQuery s job_id).safe_count + (aggQuery s job_id).risky_count +
        (aggQuery s job_id).invalid_count + (aggQuery s job_id).unknown_count ≤
      (aggQuery s job_id).total_processed ∧
    ((aggQuery s job_id).safe_count + (aggQuery s job_id).risky_count +
        (aggQuery s job_id).invalid_count + (aggQuery s job_id).unknown_count =
        (aggQuery s job_id).total_processed ↔
      ∀ r ∈ jobRows s job_id, reachOf r ∈ recognizedReach) := by
  have hs := countReach_sum (jobRows s job_id)
  have hle := sum_categoryHits_le (jobRows s job_id)
  have hiff := sum_categoryHits_eq_iff (jobRows s job_id)
  refine ⟨?_, ?_, ?_⟩
  · intro r c1 c2 hc1 hc2
    rw [hc1] at hc2
    exact Option.some.inj hc2
  · show countReach (jobRows s job_id) "safe" + countReach (jobRows s job_id) "risky" +
        countReach (jobRows s job_id) "invalid" + countReach (jobRows s job_id) "unknown" ≤
        (jobRows s job_id).length
    omega
  · show (countReach (jobRows s job_id) "safe" + countReach (jobRows s job_id) "risky" +
        countReach (jobRows s job_id) "invalid" + countReach (jobRows s job_id) "unknown" =
        (jobRows s job_id).length ↔ _)
    rw [hs]
    exact hiff

/-- Claim C8, witness: the theorem's bound applied to a store with one
recognized and one unrecognized row. -/
theorem C8_witness :
    (aggQuery store8 1).safe_count + (aggQuery store8 1).risky_count +
        (aggQuery store8 1).invalid_count + (aggQuery store8 1).unknown_count ≤
      (aggQuery store8 1).total_processed :=
  (C8_category_counts store8 1).2.1

/-- Claim C9: an absent format parameter selects JSON; an absent limit
defaults to 50 on the JSON path and 5000 on the CSV path; an absent offset
defaults to 0; and a successful reply carries content-type application/json
for JSON and text/csv for CSV. -/
theorem C9_defaults (s : Store) (job_id : Int) :
    (∀ l o : Option Nat,
      job_result s job_id ⟨none, l, o⟩ =
        job_result s job_id ⟨some .Json, l, o⟩) ∧
    (job_result s job_id ⟨some .Json, none, none⟩ =
      job_result s job_id ⟨some .Json, some 50, some 0⟩) ∧
    (job_result s job_id ⟨some .Csv, none, none⟩ =
      job_result s job_id ⟨some .Csv, some 5000, some 0⟩) ∧
    (∀ (l o : Option Nat) (b : String × String),
      job_result s job_id ⟨some .Json, l, o⟩ = .ok b → b.1 = "application/json") ∧
    (∀ (l o : Option Nat) (b : String × String),
      job_result s job_id ⟨some .Csv, l, o⟩ = .ok b → b.1 = "text/csv") := by
  refine ⟨fun l o => rfl, rfl, rfl, ?_, ?_⟩
  · intro l o b h
    injection h with h2
    rw [← h2]
  · intro l o b h
    unfold job_result at h
    cases hc : job_result_csv s job_id (l.getD 5000) (o.getD 0) with
    | error e => rw [hc] at h; exact nomatch h
    | ok d => rw [hc] at h; injection h with h2; rw [← h2]

/-- Claim C9, witness: the content-type clauses applied to the empty store's
successful replies. -/
theorem C9_witness :
    ((("application/json",
        jsonEnvelope (job_result_json store0 7 50 0)) : String × String).1 =
      "application/json") ∧
    ((("text/csv", "") : String × String).1 = "text/csv") :=
  ⟨(C9_defaults store0 7).2.2.2.1 none none _ rfl,
   (C9_defaults store0 7).2.2.2.2 none none ("text/csv", "") rfl⟩

/-- Claim C10: an error sub-field under misc, mx, smtp or syntax never fails
the conversion, whatever the JSON type of its value; the captured error is
the JSON-text serialization of the value, so a string value keeps its
surrounding quote characters. -/
theorem C10_error_capture (st : JobResultCsvResponse) (v : Json) (s : String) :
    miscStep st ("error", v) = .ok { st with error := some v.to_string } ∧
    mxStep st ("error", v) = .ok { st with error := some v.to_string } ∧
    smtpStep st ("error", v) = .ok { st with error := some v.to_string } ∧
    syntaxStep st ("error", v) = .ok { st with error := some v.to_string } ∧
    (Json.str s).to_string = "\"" ++ jsonEscape s ++ "\"" ∧
    JobResultCsvResponse.try_from (Json.obj [("misc", Json.obj [("error", v)])]) =
      .ok { initCsvResponse with error := some v.to_string } :=
  ⟨rfl, rfl, rfl, rfl, rfl, rfl⟩

/-- Claim C10, witness: the capture equations applied to a number-valued and
a string-valued error. -/
theorem C10_witness :
    miscStep initCsvResponse ("error", Json.num 7) =
      .ok { initCsvResponse with error := some (Json.num 7).to_string } ∧
    smtpStep initCsvResponse ("error", Json.str "boom") =
      .ok { initCsvResponse with error := some (Json.str "boom").to_string } :=
  ⟨(C10_error_capture initCsvResponse (Json.num 7) "x").1,
   (C10_error_capture initCsvResponse (Json.str "boom") "x").2.2.1⟩
